import Mathlib

/-!
# Verification of the periodic-gym biomechanical analysis and rep-detection engine

Shallow embedding of the core engine:

* the confidence-weighted temporal smoother (`smoothMetric`, from
  `usePoseAnalysis`), over `ℚ`;
* the hysteresis-based repetition state machine (`detectRepStep`,
  `detectRep`, `processFrame`, from `usePoseAnalysis`), over `ℚ`;
* the geometry primitives and exercise analyzers (`calculateAngle`,
  `analyzeSquat`, `analyzeBackRow`, `analyzePushUp`, `analyzeExercise`,
  from the geometry library), over `ℝ`.

Numbers that the source manipulates only through field operations and
comparisons are modelled as rationals so that concrete runs evaluate;
the trigonometric geometry is modelled over the reals.
-/

namespace PeriodicGym

/-! ## Temporal smoother (source: usePoseAnalysis, smoothMetric) -/

/-- Minimum confidence threshold for valid analysis (source constant
`MIN_CONFIDENCE_THRESHOLD = 0.5`). -/
def MIN_CONFIDENCE_THRESHOLD : ℚ := 1/2

/-- Source constant `BUFFER_SIZE = 5`. -/
def BUFFER_SIZE : ℕ := 5

/-- Exponential decay factor used inside `smoothMetric` (source: `decay = 0.8`). -/
def decay : ℚ := 4/5

/-- The smoothing buffer: two parallel sequences of sample values and their
confidences (source interface `SmoothingBuffer`). -/
structure SmoothingBuffer where
  values : List ℚ
  weights : List ℚ
  deriving Repr, DecidableEq

/-- The accumulation loop of `smoothMetric`: iterates `i` over the buffer
positions, accumulating `weightedSum` (first component) and `totalWeight`
(second component), where sample `i` gets weight
`weights[i] * decay ^ (n - 1 - i)`. -/
def smoothLoop (values weights : List ℚ) : ℚ × ℚ :=
  (List.range values.length).foldl
    (fun acc i =>
      let recency := decay ^ (values.length - 1 - i)
      let weight := weights.getD i 0 * recency
      (acc.1 + values.getD i 0 * weight, acc.2 + weight))
    (0, 0)

/-- `smoothMetric value confidence`: pushes the pair onto the buffer, evicts
the oldest entry when the capacity `BUFFER_SIZE` is exceeded, and returns the
confidence-and-recency weighted average (or the raw `value` when the total
weight is not positive), together with the updated buffer. -/
def smoothMetric (buf : SmoothingBuffer) (value confidence : ℚ) :
    ℚ × SmoothingBuffer :=
  let values0 := buf.values ++ [value]
  let weights0 := buf.weights ++ [confidence]
  let values := if values0.length > BUFFER_SIZE then values0.drop 1 else values0
  let weights := if weights0.length > BUFFER_SIZE then weights0.drop 1 else weights0
  let acc := smoothLoop values weights
  (if acc.2 > 0 then acc.1 / acc.2 else value, ⟨values, weights⟩)

/-! ## Repetition state machine (source: usePoseAnalysis, detectRep) -/

/-- Source type `RepState = 'UP' | 'DOWN' | 'TRANSITIONING'`. -/
inductive RepState where
  | UP
  | DOWN
  | TRANSITIONING
  deriving Repr, DecidableEq

/-- Source interface `RepData`. -/
structure RepData where
  count : ℕ
  duration : ℚ
  quality : ℚ
  timestamp : ℚ
  confidence : ℚ
  deriving Repr, DecidableEq

/-- Per-exercise thresholds with hysteresis (source: `thresholds` table). -/
structure Thresholds where
  up : ℚ
  down : ℚ
  hysteresis : ℚ
  deriving Repr, DecidableEq

/-- Source `thresholds['remada']`. -/
def remadaThresholds : Thresholds := ⟨150, 80, 10⟩

/-- Source `thresholds['agachamento']` (squat). -/
def squatThresholds : Thresholds := ⟨150, 100, 10⟩

/-- Source `thresholds['flexão']`. -/
def flexaoThresholds : Thresholds := ⟨150, 90, 8⟩

/-- Source `thresholds['default']`. -/
def defaultThresholds : Thresholds := ⟨150, 90, 10⟩

/-- The long-lived mutable state of one analysis session: the rep state
machine refs (`repState`, `repStartTime`, `lastRepTime`, `repHistory`,
`qualitySum`, `confidenceSum`, `repCountRef`) and the smoothing buffer
(`metricBuffer`). -/
structure EngineState where
  repState : RepState
  repStartTime : ℚ
  lastRepTime : ℚ
  repHistory : List RepData
  qualitySum : ℚ
  confidenceSum : ℚ
  repCount : ℕ
  buffer : SmoothingBuffer
  deriving Repr, DecidableEq

/-- Initial session state: `repState = UP`, empty history and buffer, all
counters zero. -/
def initState : EngineState :=
  { repState := RepState.UP
    repStartTime := 0
    lastRepTime := 0
    repHistory := []
    qualitySum := 0
    confidenceSum := 0
    repCount := 0
    buffer := ⟨[], []⟩ }

/-- The state-machine body of `detectRep` (the `if`/`else if` chain on
`repState.current`), acting on the already-smoothed angle `smoothed` at time
`now`.  `aQuality` and `aConf` are `analysis.quality` and
`analysis.confidence`, recorded into the `RepData` on acceptance.  Returns
whether a repetition was counted, and the updated state. -/
def detectRepStep (st : EngineState) (smoothed : ℚ) (th : Thresholds)
    (now : ℚ) (aQuality aConf : ℚ) : Bool × EngineState :=
  if st.repState = RepState.UP ∧ smoothed < th.down - th.hysteresis then
    (false, { st with repState := RepState.TRANSITIONING, repStartTime := now })
  else if st.repState = RepState.TRANSITIONING ∧ smoothed > th.up + th.hysteresis then
    -- Completed rep: evaluate debounce and duration validity
    let duration := (now - st.repStartTime) / 1000
    if now - st.lastRepTime < 500 then
      (false, st)
    else if duration < 3/10 ∨ duration > 10 then
      (false, { st with repState := RepState.UP })
    else
      (true,
        { st with
          repState := RepState.UP
          lastRepTime := now
          repHistory := st.repHistory ++
            [{ count := st.repCount + 1
               duration := duration
               quality := aQuality
               timestamp := now
               confidence := aConf }]
          qualitySum := st.qualitySum + aQuality
          confidenceSum := st.confidenceSum + aConf })
  else if st.repState = RepState.DOWN ∧ smoothed > th.up + th.hysteresis then
    (false, { st with repState := RepState.UP })
  else if st.repState = RepState.TRANSITIONING ∧ smoothed < th.down - th.hysteresis * 2 then
    (false, { st with repState := RepState.DOWN })
  else
    (false, st)

/-- Full `detectRep`: the validity and minimum-confidence gates, then the
smoothing of the primary angle, then the state machine.  `isValid` is
`analysis.isValid`; `pAngle`/`pConf` are the primary angle and its confidence
from `getPrimaryAngle`; `aQuality`/`aConf` are `analysis.quality` and
`analysis.confidence`. -/
def detectRep (st : EngineState) (isValid : Bool) (pAngle pConf aQuality aConf : ℚ)
    (th : Thresholds) (now : ℚ) : Bool × EngineState :=
  if !isValid then (false, st)
  else if aConf < MIN_CONFIDENCE_THRESHOLD then (false, st)
  else
    let sm := smoothMetric st.buffer pAngle pConf
    detectRepStep { st with buffer := sm.2 } sm.1 th now aQuality aConf

/-- One frame of the caller loop (`analyze`): run `detectRep` and, when a
repetition is detected, increment `repCountRef`. -/
def processFrame (st : EngineState) (isValid : Bool)
    (pAngle pConf aQuality aConf : ℚ) (th : Thresholds) (now : ℚ) :
    Bool × EngineState :=
  let res := detectRep st isValid pAngle pConf aQuality aConf th now
  (res.1, if res.1 then { res.2 with repCount := res.2.repCount + 1 } else res.2)

/-- Drives the repetition state machine over a list of (smoothed angle,
timestamp) samples, each with `analysis.quality = 100` and
`analysis.confidence = 1`, incrementing `repCount` on each detected
repetition as the caller loop does. -/
def runMachine (th : Thresholds) (st : EngineState) :
    List (ℚ × ℚ) → EngineState
  | [] => st
  | (a, t) :: rest =>
    let res := detectRepStep st a th t 100 1
    runMachine th
      (if res.1 then { res.2 with repCount := res.2.repCount + 1 } else res.2) rest


/-! ## Geometry primitives (source: geometry library) -/

/-- Source interface `Point`: normalized coordinates with optional depth and
visibility. -/
structure Point where
  x : ℝ
  y : ℝ
  z : Option ℝ := none
  visibility : Option ℝ := none

/-- Source interface `Vector3D`. -/
structure Vector3D where
  x : ℝ
  y : ℝ
  z : ℝ

/-- Source `toVector3D` (missing z treated as 0). -/
def toVector3D (p : Point) : Vector3D :=
  ⟨p.x, p.y, p.z.getD 0⟩

/-- Source `subtractVectors`. -/
def subtractVectors (a b : Vector3D) : Vector3D :=
  ⟨a.x - b.x, a.y - b.y, a.z - b.z⟩

/-- Source `dotProduct`. -/
def dotProduct (a b : Vector3D) : ℝ :=
  a.x * b.x + a.y * b.y + a.z * b.z

/-- Source `magnitude`. -/
noncomputable def magnitude (v : Vector3D) : ℝ :=
  Real.sqrt (v.x * v.x + v.y * v.y + v.z * v.z)

/-- Source `crossProduct`. -/
def crossProduct (a b : Vector3D) : Vector3D :=
  ⟨a.y * b.z - a.z * b.y, a.z * b.x - a.x * b.z, a.x * b.y - a.y * b.x⟩

/-- Source `calculateAngle`: angle at vertex `b` between `b→a` and `b→c`, in
degrees, via the clamped dot-product/arccos formula; 0 when either vector has
zero magnitude. -/
noncomputable def calculateAngle (a b c : Point) : ℝ :=
  let va := toVector3D a
  let vb := toVector3D b
  let vc := toVector3D c
  let ba := subtractVectors va vb
  let bc := subtractVectors vc vb
  let dot := dotProduct ba bc
  let magBA := magnitude ba
  let magBC := magnitude bc
  if magBA = 0 ∨ magBC = 0 then 0
  else
    let cosAngle := max (-1) (min 1 (dot / (magBA * magBC)))
    Real.arccos cosAngle * (180 / Real.pi)

/-- `Math.atan2 y x`, modelled as the argument of the complex number
`x + y i`. -/
noncomputable def atan2 (y x : ℝ) : ℝ :=
  Complex.arg ⟨x, y⟩

/-- Source `calculateAngle2D`: 2D angle via atan2 differences. -/
noncomputable def calculateAngle2D (a b c : Point) : ℝ :=
  let radians := atan2 (c.y - b.y) (c.x - b.x) - atan2 (a.y - b.y) (a.x - b.x)
  let angle := |radians * 180 / Real.pi|
  if angle > 180 then 360 - angle else angle

/-- Source `calculateDistance` (3D). -/
noncomputable def calculateDistance (a b : Point) : ℝ :=
  let dx := a.x - b.x
  let dy := a.y - b.y
  let dz := a.z.getD 0 - b.z.getD 0
  Real.sqrt (dx * dx + dy * dy + dz * dz)

/-- Source `calculateDistance2D`. -/
noncomputable def calculateDistance2D (a b : Point) : ℝ :=
  let dx := a.x - b.x
  let dy := a.y - b.y
  Real.sqrt (dx * dx + dy * dy)

/-- Source `getAverageConfidence`: mean visibility over the present landmarks
of an index subset (absent visibility counts as 1), 0 when no indexed
landmark is present. -/
noncomputable def defaultPoint : Point := ⟨0, 0, none, none⟩

/-- Landmark access `landmarks[i]` with the out-of-range default. -/
noncomputable def getP (landmarks : List Point) (i : ℕ) : Point :=
  landmarks.getD i defaultPoint

noncomputable def getAverageConfidence (landmarks : List Point)
    (indices : List ℕ) : ℝ :=
  let validPoints := indices.filter (fun i => (landmarks.get? i).isSome)
  if validPoints.length = 0 then 0
  else
    (validPoints.map (fun i => (getP landmarks i).visibility.getD 1)).sum /
      validPoints.length

/-- Source `calculateWeightedAngle`: the angle plus the minimum visibility of
the three points. -/
noncomputable def calculateWeightedAngle (a b c : Point) : ℝ × ℝ :=
  (calculateAngle a b c,
   min (a.visibility.getD 1) (min (b.visibility.getD 1) (c.visibility.getD 1)))

/-- Source `isVisible` with the default threshold 0.5. -/
def isVisible (p : Point) : Prop :=
  p.visibility.getD 1 ≥ 0.5

/-- Source `validateLandmarks`: every required index is present and visible. -/
def validateLandmarks (landmarks : List Point) (indices : List ℕ) : Prop :=
  ∀ i ∈ indices, ∃ p, landmarks.get? i = some p ∧ isVisible p

noncomputable instance (landmarks : List Point) (indices : List ℕ) :
    Decidable (validateLandmarks landmarks indices) :=
  Classical.propDecidable _

/-- Source `pointToLineDistance`: perpendicular distance from `p` to the line
through `a` and `b`; distance to `a` when the baseline is degenerate. -/
noncomputable def pointToLineDistance (p a b : Point) : ℝ :=
  let va := toVector3D a
  let vb := toVector3D b
  let vp := toVector3D p
  let ab := subtractVectors vb va
  let ap := subtractVectors vp va
  let cross := crossProduct ab ap
  let crossMag := magnitude cross
  let abMag := magnitude ab
  if abMag = 0 then magnitude ap else crossMag / abMag

/-! ## Exercise analyzers (source: geometry library) -/

/-- Movement phase. -/
inductive Phase where
  | eccentric
  | concentric
  | isometric
  | rest
  deriving Repr, DecidableEq

/-- Source interface `BiomechanicalAnalysis`; the string-keyed metrics object
is modelled as an association list in insertion order. -/
structure BiomechanicalAnalysis where
  feedback : List String
  metrics : List (String × ℝ)
  phase : Phase
  isValid : Bool
  quality : ℝ
  confidence : ℝ

/-- Required landmark indices of `analyzeBackRow`. -/
def backRowRequired : List ℕ := [11, 13, 15, 23, 27, 12]

/-- Required landmark indices of `analyzeSquat`. -/
def squatRequired : List ℕ := [11, 23, 24, 25, 26, 27, 28]

/-- Required landmark indices of `analyzePushUp`. -/
def pushUpRequired : List ℕ := [11, 13, 15, 23, 25, 27]

/-- Back-row torso-inclination rule: feedback. -/
noncomputable def rowTorsoFeedback (t : ℝ) : List String :=
  if t > 160 then ["Incline o tronco para frente (~45°)"]
  else if t < 100 then ["Não incline demais - proteja a lombar"]
  else if 120 ≤ t ∧ t ≤ 150 then ["Inclinação do tronco perfeita"]
  else []

/-- Back-row torso-inclination rule: penalty. -/
noncomputable def rowTorsoPenalty (t : ℝ) : ℝ :=
  if t > 160 then 15 else if t < 100 then 20 else 0

/-- Back-row shoulder-alignment rule (y distance or z rotation too large). -/
noncomputable def rowShoulderPenalty (yDist zDist : ℝ) : ℝ :=
  if yDist > 0.05 ∨ zDist > 0.1 then 15 else 0

noncomputable def rowShoulderFeedback (yDist zDist : ℝ) : List String :=
  if yDist > 0.05 ∨ zDist > 0.1 then
    ["Mantenha os ombros alinhados - sem rotação"]
  else []

/-- Back-row pull-range rule. -/
noncomputable def rowElbowPenalty (a : ℝ) : ℝ :=
  if a > 160 then 0 else if a < 60 then 10 else 0

noncomputable def rowElbowFeedback (a : ℝ) : List String :=
  if a > 160 then ["Braço estendido - inicie a puxada"]
  else if a < 60 then ["Puxada muito curta - estenda mais o braço"]
  else []

/-- Back-row elbow-proximity rule. -/
noncomputable def rowProximityPenalty (d : ℝ) : ℝ :=
  if d > 0.15 then 10 else 0

noncomputable def rowProximityFeedback (d : ℝ) : List String :=
  if d > 0.15 then ["Mantenha o cotovelo próximo ao corpo"] else []

/-- Back-row phase classification by elbow angle. -/
noncomputable def rowPhase (a : ℝ) : Phase :=
  if a > 150 then Phase.eccentric
  else if a < 90 then Phase.concentric
  else Phase.isometric

/-- Source `analyzeBackRow`. -/
noncomputable def analyzeBackRow (landmarks : List Point) :
    BiomechanicalAnalysis :=
  if validateLandmarks landmarks backRowRequired then
    let shoulder := getP landmarks 11
    let elbow := getP landmarks 13
    let wrist := getP landmarks 15
    let hip := getP landmarks 23
    let ankle := getP landmarks 27
    let shoulderR := getP landmarks 12
    let confidence := getAverageConfidence landmarks backRowRequired
    let elbowResult := calculateWeightedAngle shoulder elbow wrist
    let torsoAngle := calculateAngle2D shoulder hip ankle
    let shoulderYDist := |shoulder.y - shoulderR.y|
    let shoulderZDist := |shoulder.z.getD 0 - shoulderR.z.getD 0|
    let elbowTorsoDistance := calculateDistance2D elbow hip
    let quality := 100 - rowTorsoPenalty torsoAngle
      - rowShoulderPenalty shoulderYDist shoulderZDist
      - rowElbowPenalty elbowResult.1
      - rowProximityPenalty elbowTorsoDistance
    { feedback := rowTorsoFeedback torsoAngle ++
        rowShoulderFeedback shoulderYDist shoulderZDist ++
        rowElbowFeedback elbowResult.1 ++
        rowProximityFeedback elbowTorsoDistance
      metrics := [("elbowAngle", elbowResult.1),
        ("elbowConfidence", elbowResult.2), ("torsoAngle", torsoAngle),
        ("shoulderAlignment", shoulderYDist),
        ("shoulderRotation", shoulderZDist),
        ("elbowProximity", elbowTorsoDistance)]
      phase := rowPhase elbowResult.1
      isValid := true
      quality := max 0 ((round quality : ℤ) : ℝ)
      confidence := confidence }
  else
    { feedback := ["Posicione-se de lado para a câmera"]
      metrics := []
      phase := Phase.rest
      isValid := false
      quality := 0
      confidence := 0 }

/-- Squat depth rule: feedback. -/
noncomputable def squatDepthFeedback (a : ℝ) : List String :=
  if a > 160 then ["Posição inicial - desça controladamente"]
  else if a < 90 then ["Profundidade completa! Excelente"]
  else if a < 120 then ["Boa profundidade - paralelo atingido"]
  else if a < 140 then ["Desça um pouco mais para profundidade ideal"]
  else []

/-- Squat depth rule: penalty (only the 120–140 band is penalized). -/
noncomputable def squatDepthPenalty (a : ℝ) : ℝ :=
  if a > 160 then 0 else if a < 90 then 0 else if a < 120 then 0
  else if a < 140 then 10 else 0

/-- Squat back-alignment rule. -/
noncomputable def squatTorsoPenalty (t : ℝ) : ℝ :=
  if t < 140 then 15 else if t > 180 then 10 else 0

noncomputable def squatTorsoFeedback (t : ℝ) : List String :=
  if t < 140 then ["Mantenha o peito erguido - costas muito inclinadas"]
  else if t > 180 then ["Não incline para trás demais"]
  else []

/-- Squat knee-forward rule. -/
noncomputable def squatKneeForwardPenalty (r : ℝ) : ℝ :=
  if |r| > 0.3 then 15 else 0

noncomputable def squatKneeForwardFeedback (r : ℝ) : List String :=
  if |r| > 0.3 then ["Joelho ultrapassando a ponta do pé"] else []

/-- Squat leg-asymmetry rule: the penalty is NOT a fixed constant — it is
`min 20 (round (asymmetry * 0.5))`. -/
noncomputable def squatAsymmetryPenalty (asym : ℝ) : ℝ :=
  if asym > 15 then min 20 ((round (asym * 0.5) : ℤ) : ℝ) else 0

noncomputable def squatAsymmetryFeedback (asym : ℝ) : List String :=
  if asym > 15 then ["Distribua o peso uniformemente entre as pernas"] else []

/-- Squat lateral-hip-shift rule. -/
noncomputable def squatLateralPenalty (s : ℝ) : ℝ :=
  if s > 0.08 then 10 else 0

noncomputable def squatLateralFeedback (s : ℝ) : List String :=
  if s > 0.08 then ["Mantenha o quadril centralizado"] else []

/-- Squat phase classification by knee angle. -/
noncomputable def squatPhase (a : ℝ) : Phase :=
  if a > 150 then Phase.rest
  else if a < 110 then Phase.concentric
  else Phase.eccentric

/-- Source `analyzeSquat`. -/
noncomputable def analyzeSquat (landmarks : List Point) :
    BiomechanicalAnalysis :=
  if validateLandmarks landmarks squatRequired then
    let shoulder := getP landmarks 11
    let hipL := getP landmarks 23
    let hipR := getP landmarks 24
    let kneeL := getP landmarks 25
    let kneeR := getP landmarks 26
    let ankleL := getP landmarks 27
    let ankleR := getP landmarks 28
    let confidence := getAverageConfidence landmarks squatRequired
    let kneeResult := calculateWeightedAngle hipL kneeL ankleL
    let torsoAngle := calculateAngle shoulder hipL kneeL
    let kneeAnkleDist := calculateDistance2D kneeL ankleL
    let kneeForwardRatio := (kneeL.x - ankleL.x) / max kneeAnkleDist 0.01
    let kneeAngleR := calculateAngle hipR kneeR ankleR
    let asymmetry := |kneeResult.1 - kneeAngleR|
    let hipCenterX := (hipL.x + hipR.x) / 2
    let ankleCenterX := (ankleL.x + ankleR.x) / 2
    let lateralShift := |hipCenterX - ankleCenterX|
    let quality := 100 - squatDepthPenalty kneeResult.1
      - squatTorsoPenalty torsoAngle
      - squatKneeForwardPenalty kneeForwardRatio
      - squatAsymmetryPenalty asymmetry
      - squatLateralPenalty lateralShift
    { feedback := squatDepthFeedback kneeResult.1 ++
        squatTorsoFeedback torsoAngle ++
        squatKneeForwardFeedback kneeForwardRatio ++
        squatAsymmetryFeedback asymmetry ++
        squatLateralFeedback lateralShift
      metrics := [("kneeAngle", kneeResult.1),
        ("kneeConfidence", kneeResult.2), ("torsoAngle", torsoAngle),
        ("kneeForwardRatio", kneeForwardRatio), ("legAsymmetry", asymmetry),
        ("lateralShift", lateralShift)]
      phase := squatPhase kneeResult.1
      isValid := true
      quality := max 0 ((round quality : ℤ) : ℝ)
      confidence := confidence }
  else
    { feedback := ["Posicione-se de frente ou de costas para a câmera"]
      metrics := []
      phase := Phase.rest
      isValid := false
      quality := 0
      confidence := 0 }

/-- Push-up depth rule: the final "descend more" branch is penalized. -/
noncomputable def pushDepthPenalty (a : ℝ) : ℝ :=
  if a > 160 then 0 else if a < 90 then 0 else if a < 120 then 0 else 15

noncomputable def pushDepthFeedback (a : ℝ) : List String :=
  if a > 160 then ["Posição inicial - desça controladamente"]
  else if a < 90 then ["Profundidade completa! Ótima execução"]
  else if a < 120 then ["Boa profundidade - continue"]
  else ["Desça mais para aproveitar o movimento completo"]

/-- Push-up body-alignment rule (hip deviation or body angle). -/
noncomputable def pushAlignmentPenalty (dev bodyAngle : ℝ) : ℝ :=
  if dev > 0.05 ∨ bodyAngle < 160 then 20
  else if bodyAngle > 190 then 20 else 0

noncomputable def pushAlignmentFeedback (dev bodyAngle : ℝ) : List String :=
  if dev > 0.05 ∨ bodyAngle < 160 then
    ["Quadril muito alto - mantenha o corpo reto"]
  else if bodyAngle > 190 then ["Quadril caído - ative o core"]
  else ["Alinhamento corporal perfeito"]

/-- Push-up elbow-flare rule. -/
noncomputable def pushFlarePenalty (f : ℝ) : ℝ :=
  if f > 0.15 then 10 else 0

noncomputable def pushFlareFeedback (f : ℝ) : List String :=
  if f > 0.15 then ["Cotovelos muito abertos - aproxime do corpo"] else []

/-- Push-up phase classification by elbow angle. -/
noncomputable def pushPhase (a : ℝ) : Phase :=
  if a > 150 then Phase.rest
  else if a < 110 then Phase.concentric
  else Phase.eccentric

/-- Source `analyzePushUp`. -/
noncomputable def analyzePushUp (landmarks : List Point) :
    BiomechanicalAnalysis :=
  if validateLandmarks landmarks pushUpRequired then
    let shoulder := getP landmarks 11
    let elbow := getP landmarks 13
    let wrist := getP landmarks 15
    let hip := getP landmarks 23
    let ankle := getP landmarks 27
    let confidence := getAverageConfidence landmarks pushUpRequired
    let elbowResult := calculateWeightedAngle shoulder elbow wrist
    let hipLineDeviation := pointToLineDistance hip shoulder ankle
    let bodyAngle := calculateAngle2D shoulder hip ankle
    let elbowShoulderDist := calculateDistance elbow shoulder
    let elbowFlare := |elbow.x - shoulder.x|
    let elbowDepthDiff := elbow.z.getD 0 - shoulder.z.getD 0
    let quality := 100 - pushDepthPenalty elbowResult.1
      - pushAlignmentPenalty hipLineDeviation bodyAngle
      - pushFlarePenalty elbowFlare
    { feedback := pushDepthFeedback elbowResult.1 ++
        pushAlignmentFeedback hipLineDeviation bodyAngle ++
        pushFlareFeedback elbowFlare
      metrics := [("elbowAngle", elbowResult.1),
        ("elbowConfidence", elbowResult.2),
        ("hipDeviation", hipLineDeviation), ("bodyAlignment", bodyAngle),
        ("elbowFlare", elbowFlare),
        ("elbowShoulderDist", elbowShoulderDist),
        ("elbowDepth", elbowDepthDiff)]
      phase := pushPhase elbowResult.1
      isValid := true
      quality := max 0 ((round quality : ℤ) : ℝ)
      confidence := confidence }
  else
    { feedback := ["Posicione-se de lado para a câmera"]
      metrics := []
      phase := Phase.rest
      isValid := false
      quality := 0
      confidence := 0 }

/-- Character-list prefix test, for the substring matching of the exercise
dispatcher. -/
def strStartsWith : List Char → List Char → Bool
  | _, [] => true
  | [], _ :: _ => false
  | a :: as, b :: bs => a == b && strStartsWith as bs

/-- Character-list substring test (JavaScript `String.prototype.includes`). -/
def strHasSub : List Char → List Char → Bool
  | [], sub => strStartsWith [] sub
  | a :: as, sub => strStartsWith (a :: as) sub || strHasSub as sub

/-- `s.includes sub` on strings. -/
def includes (s sub : String) : Bool :=
  strHasSub s.data sub.data

/-- Source `analyzeExercise`: case-insensitive keyword dispatch to the three
analyzers, explicit invalid record for unrecognized names. -/
noncomputable def analyzeExercise (exercise : String)
    (landmarks : List Point) : BiomechanicalAnalysis :=
  let exerciseLower := exercise.toLower
  if includes exerciseLower "remada" || includes exerciseLower "row" then
    analyzeBackRow landmarks
  else if includes exerciseLower "agachamento" ||
      includes exerciseLower "squat" then
    analyzeSquat landmarks
  else if includes exerciseLower "flexão" || includes exerciseLower "push" ||
      includes exerciseLower "pushup" then
    analyzePushUp landmarks
  else
    { feedback := ["Exercício não reconhecido"]
      metrics := []
      phase := Phase.rest
      isValid := false
      quality := 0
      confidence := 0 }

/-- Angle (in radians) of the asymmetric right leg of the C4 frame:
41π/45, i.e. 164 degrees. -/
noncomputable def c4theta : ℝ := 41 * Real.pi / 45

/-- The C4 frame: a full squat pose whose left leg is straight (left knee
angle 180°) and whose right knee angle is 164°, so the leg asymmetry is
exactly 16°; all other rules are satisfied. -/
noncomputable def c4frame : List Point :=
  [⟨0, 0, none, none⟩, ⟨0, 0, none, none⟩, ⟨0, 0, none, none⟩,
   ⟨0, 0, none, none⟩, ⟨0, 0, none, none⟩, ⟨0, 0, none, none⟩,
   ⟨0, 0, none, none⟩, ⟨0, 0, none, none⟩, ⟨0, 0, none, none⟩,
   ⟨0, 0, none, none⟩, ⟨0, 0, none, none⟩,
   ⟨0, 2, none, none⟩,            -- 11: shoulder
   ⟨0, 0, none, none⟩, ⟨0, 0, none, none⟩, ⟨0, 0, none, none⟩,
   ⟨0, 0, none, none⟩, ⟨0, 0, none, none⟩, ⟨0, 0, none, none⟩,
   ⟨0, 0, none, none⟩, ⟨0, 0, none, none⟩, ⟨0, 0, none, none⟩,
   ⟨0, 0, none, none⟩, ⟨0, 0, none, none⟩,
   ⟨0, 1, none, none⟩,            -- 23: left hip
   ⟨1 + Real.sin c4theta / 10, 1/2 - Real.cos c4theta / 10, none, none⟩,
                                  -- 24: right hip
   ⟨0, 1/2, none, none⟩,          -- 25: left knee
   ⟨1, 1/2, none, none⟩,          -- 26: right knee
   ⟨0, 0, none, none⟩,            -- 27: left ankle
   ⟨1, 0, none, none⟩]            -- 28: right ankle

end PeriodicGym


namespace PeriodicGym

/-! ## C1: behaviour at the TRANSITIONING → UP crossing -/

/-- C1 counterexample: in state `TRANSITIONING`, with smoothed angle `175`
strictly above `up + hysteresis = 160` (squat thresholds), but with only
200 ms elapsed since the last accepted repetition, the debounce branch
rejects the candidate and the machine does NOT reset to `UP`: it stays in
`TRANSITIONING`. -/
theorem c1_counterexample :
    (175 : ℚ) > squatThresholds.up + squatThresholds.hysteresis ∧
    (detectRepStep
        { initState with
          repState := RepState.TRANSITIONING
          repStartTime := 900
          lastRepTime := 1000 }
        175 squatThresholds 1200 100 1).2.repState ≠ RepState.UP := by
  constructor
  · norm_num [squatThresholds]
  · have h : (detectRepStep
        { initState with
          repState := RepState.TRANSITIONING
          repStartTime := 900
          lastRepTime := 1000 }
        175 squatThresholds 1200 100 1).2.repState = RepState.TRANSITIONING := by
      norm_num [detectRepStep, initState, squatThresholds]
    rw [h]
    decide

/-- C1 (amended): at a step taken in state `TRANSITIONING` with smoothed
angle strictly above `up + hysteresis`, the machine resets to `UP` whenever
at least 500 ms have elapsed since the last accepted repetition — both on
acceptance and on implausible-duration rejection; when the debounce rejects
the candidate (less than 500 ms since the last accepted repetition) the
state is left completely unchanged, still `TRANSITIONING`. -/
theorem c1_amended (st : EngineState) (s : ℚ) (th : Thresholds)
    (now aQuality aConf : ℚ)
    (hst : st.repState = RepState.TRANSITIONING)
    (hs : s > th.up + th.hysteresis) :
    (500 ≤ now - st.lastRepTime →
      (detectRepStep st s th now aQuality aConf).2.repState = RepState.UP) ∧
    (now - st.lastRepTime < 500 →
      (detectRepStep st s th now aQuality aConf).2 = st) := by
  have h1 : ¬(st.repState = RepState.UP ∧ s < th.down - th.hysteresis) := by
    rintro ⟨h, -⟩
    rw [hst] at h
    exact absurd h (by decide)
  simp only [detectRepStep]
  rw [if_neg h1, if_pos ⟨hst, hs⟩]
  constructor
  · intro h
    rw [if_neg (by linarith : ¬(now - st.lastRepTime < 500))]
    by_cases hd : (now - st.repStartTime) / 1000 < 3/10 ∨
        (now - st.repStartTime) / 1000 > 10
    · rw [if_pos hd]
    · rw [if_neg hd]
  · intro h
    rw [if_pos h]

/-- C1 witness: concrete instance of `c1_amended` — same crossing, but with
2000 ms since the last accepted repetition, the machine does reset to `UP`. -/
theorem c1_amended_witness :
    (detectRepStep
        { initState with
          repState := RepState.TRANSITIONING
          repStartTime := 1000 }
        175 squatThresholds 2000 100 1).2.repState = RepState.UP :=
  (c1_amended _ 175 squatThresholds 2000 100 1 rfl (by norm_num [squatThresholds])).1
    (by norm_num [initState])

end PeriodicGym

namespace PeriodicGym

/-! ## C2: the reference squat sequence -/

/-- C2 counterexample: with the squat thresholds, the smoothed-angle sequence
`[170,170,85,85,85,160]` at timestamps 500 ms apart, confidence 1.0, from the
initial state `UP`, yields ZERO accepted repetitions, not one: the final
sample `160` is not strictly greater than `up + hysteresis = 160`, so the
TRANSITIONING → UP crossing never fires. -/
theorem c2_counterexample :
    (runMachine squatThresholds initState
      [(170, 1000), (170, 1500), (85, 2000), (85, 2500), (85, 3000),
       (160, 3500)]).repCount = 0 := by
  have e1 : detectRepStep initState 170 squatThresholds 1000 100 1 =
      (false, initState) := by
    norm_num [detectRepStep, initState, squatThresholds]
    all_goals decide
  have e2 : detectRepStep initState 170 squatThresholds 1500 100 1 =
      (false, initState) := by
    norm_num [detectRepStep, initState, squatThresholds]
    all_goals decide
  have e3 : detectRepStep initState 85 squatThresholds 2000 100 1 =
      (false, { initState with
        repState := RepState.TRANSITIONING, repStartTime := 2000 }) := by
    norm_num [detectRepStep, initState, squatThresholds]
    all_goals decide
  have e4 : detectRepStep
      { initState with repState := RepState.TRANSITIONING, repStartTime := 2000 }
      85 squatThresholds 2500 100 1 =
      (false, { initState with
        repState := RepState.TRANSITIONING, repStartTime := 2000 }) := by
    norm_num [detectRepStep, initState, squatThresholds]
    all_goals decide
  have e5 : detectRepStep
      { initState with repState := RepState.TRANSITIONING, repStartTime := 2000 }
      85 squatThresholds 3000 100 1 =
      (false, { initState with
        repState := RepState.TRANSITIONING, repStartTime := 2000 }) := by
    norm_num [detectRepStep, initState, squatThresholds]
    all_goals decide
  have e6 : detectRepStep
      { initState with repState := RepState.TRANSITIONING, repStartTime := 2000 }
      160 squatThresholds 3500 100 1 =
      (false, { initState with
        repState := RepState.TRANSITIONING, repStartTime := 2000 }) := by
    norm_num [detectRepStep, initState, squatThresholds]
    all_goals decide
  simp only [runMachine, e1, e2, e3, e4, e5, e6, Bool.false_eq_true, if_false]
  norm_num [initState]

end PeriodicGym

namespace PeriodicGym

/-- C2 (amended): same setup, but the final smoothed angle must be strictly
above `up + hysteresis = 160` (we use `161`), and the elapsed time between
the 3rd and 6th samples must be at most the 10-second duration ceiling.
Then exactly one repetition is accepted, and its duration is exactly the
elapsed time, in seconds, between the 3rd and the 6th samples. -/
theorem c2_amended (t1 t2 t3 t4 t5 t6 : ℚ)
    (h1 : 0 ≤ t1) (h12 : 500 ≤ t2 - t1) (h23 : 500 ≤ t3 - t2)
    (h34 : 500 ≤ t4 - t3) (h45 : 500 ≤ t5 - t4) (h56 : 500 ≤ t6 - t5)
    (h36 : t6 - t3 ≤ 10000) :
    runMachine squatThresholds initState
        [(170, t1), (170, t2), (85, t3), (85, t4), (85, t5), (161, t6)] =
      (⟨RepState.UP, t3, t6,
        [⟨1, (t6 - t3) / 1000, 100, t6, 1⟩], 100, 1, 1, ⟨[], []⟩⟩ :
        EngineState) := by
  have e1 : detectRepStep initState 170 squatThresholds t1 100 1 =
      (false, initState) := by
    norm_num [detectRepStep, initState, squatThresholds]
    all_goals (intro h; exact absurd h (by decide))
  have e2 : detectRepStep initState 170 squatThresholds t2 100 1 =
      (false, initState) := by
    norm_num [detectRepStep, initState, squatThresholds]
    all_goals (intro h; exact absurd h (by decide))
  have e3 : detectRepStep initState 85 squatThresholds t3 100 1 =
      (false, (⟨RepState.TRANSITIONING, t3, 0, [], 0, 0, 0, ⟨[], []⟩⟩ :
        EngineState)) := by
    norm_num [detectRepStep, initState, squatThresholds]
    all_goals (intro h; exact absurd h (by decide))
  have e4 : detectRepStep
      (⟨RepState.TRANSITIONING, t3, 0, [], 0, 0, 0, ⟨[], []⟩⟩ : EngineState)
      85 squatThresholds t4 100 1 =
      (false, (⟨RepState.TRANSITIONING, t3, 0, [], 0, 0, 0, ⟨[], []⟩⟩ :
        EngineState)) := by
    norm_num [detectRepStep, squatThresholds]
    all_goals (intro h; exact absurd h (by decide))
  have e5 : detectRepStep
      (⟨RepState.TRANSITIONING, t3, 0, [], 0, 0, 0, ⟨[], []⟩⟩ : EngineState)
      85 squatThresholds t5 100 1 =
      (false, (⟨RepState.TRANSITIONING, t3, 0, [], 0, 0, 0, ⟨[], []⟩⟩ :
        EngineState)) := by
    norm_num [detectRepStep, squatThresholds]
    all_goals (intro h; exact absurd h (by decide))
  have ht6 : (t6 - (0 : ℚ) < 500) = False :=
    eq_false (by push_neg; linarith)
  have hdur : ((t6 - t3) / 1000 < 3/10 ∨ (t6 - t3) / 1000 > 10) = False := by
    refine eq_false ?_
    push_neg
    constructor
    · rw [le_div_iff₀ (by norm_num : (0:ℚ) < 1000)]
      linarith
    · rw [div_le_iff₀ (by norm_num : (0:ℚ) < 1000)]
      linarith
  have e6 : detectRepStep
      (⟨RepState.TRANSITIONING, t3, 0, [], 0, 0, 0, ⟨[], []⟩⟩ : EngineState)
      161 squatThresholds t6 100 1 =
      (true, (⟨RepState.UP, t3, t6, [⟨1, (t6 - t3) / 1000, 100, t6, 1⟩],
        100, 1, 0, ⟨[], []⟩⟩ : EngineState)) := by
    simp only [detectRepStep]
    rw [if_neg (fun h => absurd h.1 (by decide))]
    norm_num [squatThresholds, ht6, hdur]
    all_goals linarith
  simp [runMachine, e1, e2, e3, e4, e5, e6]

end PeriodicGym

namespace PeriodicGym

/-- C2 witness: concrete instance of `c2_amended` at timestamps 500 ms
apart — one accepted repetition of duration 1.5 s. -/
theorem c2_amended_witness :
    runMachine squatThresholds initState
        [(170, 1000), (170, 1500), (85, 2000), (85, 2500), (85, 3000),
         (161, 3500)] =
      (⟨RepState.UP, 2000, 3500, [⟨1, (3500 - 2000) / 1000, 100, 3500, 1⟩],
        100, 1, 1, ⟨[], []⟩⟩ : EngineState) :=
  c2_amended 1000 1500 2000 2500 3000 3500 (by norm_num) (by norm_num)
    (by norm_num) (by norm_num) (by norm_num) (by norm_num) (by norm_num)

/-! ## C3: acceptance conditions at the crossing -/

/-- C3: at a TRANSITIONING → UP crossing (valid analysis, smoothed angle
strictly above `up + hysteresis`), the candidate repetition is counted iff
the analysis confidence is at least 0.5, at least 500 ms have elapsed since
the previously accepted repetition, and the duration lies in [0.3 s, 10 s];
exactly on acceptance `repCount` increases by one, the `RepData` record is
appended, the quality and confidence sums are updated, and `lastRepTime` is
set to `now`; and when the confidence gate fails, no state update at all is
attempted. -/
theorem c3_acceptance_conditions (st : EngineState)
    (pAngle pConf aQuality aConf : ℚ) (th : Thresholds) (now : ℚ)
    (hst : st.repState = RepState.TRANSITIONING)
    (hcross : (smoothMetric st.buffer pAngle pConf).1 > th.up + th.hysteresis) :
    ((processFrame st true pAngle pConf aQuality aConf th now).1 = true ↔
      (MIN_CONFIDENCE_THRESHOLD ≤ aConf ∧ 500 ≤ now - st.lastRepTime ∧
        3/10 ≤ (now - st.repStartTime) / 1000 ∧
        (now - st.repStartTime) / 1000 ≤ 10)) ∧
    ((processFrame st true pAngle pConf aQuality aConf th now).1 = true →
      (processFrame st true pAngle pConf aQuality aConf th now).2 =
        { st with
          repState := RepState.UP
          lastRepTime := now
          repHistory := st.repHistory ++
            [{ count := st.repCount + 1
               duration := (now - st.repStartTime) / 1000
               quality := aQuality
               timestamp := now
               confidence := aConf }]
          qualitySum := st.qualitySum + aQuality
          confidenceSum := st.confidenceSum + aConf
          repCount := st.repCount + 1
          buffer := (smoothMetric st.buffer pAngle pConf).2 }) ∧
    ((processFrame st true pAngle pConf aQuality aConf th now).1 = false →
      (processFrame st true pAngle pConf aQuality aConf th now).2.repCount =
          st.repCount ∧
        (processFrame st true pAngle pConf aQuality aConf th now).2.repHistory =
          st.repHistory ∧
        (processFrame st true pAngle pConf aQuality aConf th now).2.qualitySum =
          st.qualitySum ∧
        (processFrame st true pAngle pConf aQuality aConf th now).2.confidenceSum =
          st.confidenceSum ∧
        (processFrame st true pAngle pConf aQuality aConf th now).2.lastRepTime =
          st.lastRepTime) ∧
    (aConf < MIN_CONFIDENCE_THRESHOLD →
      (processFrame st true pAngle pConf aQuality aConf th now).2 = st) := by
  have hne : ¬({ st with buffer := (smoothMetric st.buffer pAngle pConf).2 } :
      EngineState).repState = RepState.UP := by
    intro h
    rw [show ({ st with buffer := (smoothMetric st.buffer pAngle pConf).2 } :
      EngineState).repState = st.repState from rfl, hst] at h
    exact absurd h (by decide)
  by_cases hc : aConf < MIN_CONFIDENCE_THRESHOLD
  · constructor
    · simp only [processFrame, detectRep, Bool.not_true, if_pos hc]
      norm_num
      intro h
      exact absurd h (not_le.2 hc)
    · refine ⟨?_, ?_, fun _ => ?_⟩
      · simp [processFrame, detectRep, hc]
      · simp [processFrame, detectRep, hc]
      · simp [processFrame, detectRep, hc]
  · simp only [processFrame, detectRep, Bool.not_true, if_neg hc, if_false,
      Bool.false_eq_true]
    simp only [detectRepStep]
    rw [if_neg (fun h => hne h.1), if_pos ⟨(rfl : ({ st with
      buffer := (smoothMetric st.buffer pAngle pConf).2 } :
      EngineState).repState = st.repState) ▸ hst, hcross⟩]
    by_cases hdeb : now - st.lastRepTime < 500
    · rw [if_pos (show now - ({ st with
        buffer := (smoothMetric st.buffer pAngle pConf).2 } :
        EngineState).lastRepTime < 500 from hdeb)]
      exact ⟨⟨fun h => absurd h (by simp), fun hr => absurd hdeb (not_lt.2 hr.2.1)⟩,
        fun h => absurd h (by simp), fun _ => ⟨rfl, rfl, rfl, rfl, rfl⟩,
        fun h => absurd h hc⟩
    · by_cases hdur : (now - st.repStartTime) / 1000 < 3/10 ∨
          (now - st.repStartTime) / 1000 > 10
      · rw [if_neg (show ¬(now - ({ st with
          buffer := (smoothMetric st.buffer pAngle pConf).2 } :
          EngineState).lastRepTime < 500) from hdeb),
          if_pos (show (now - ({ st with
            buffer := (smoothMetric st.buffer pAngle pConf).2 } :
            EngineState).repStartTime) / 1000 < 3/10 ∨
            (now - ({ st with
            buffer := (smoothMetric st.buffer pAngle pConf).2 } :
            EngineState).repStartTime) / 1000 > 10 from hdur)]
        refine ⟨⟨fun h => absurd h (by simp), fun hr => ?_⟩,
          fun h => absurd h (by simp), fun _ => ⟨rfl, rfl, rfl, rfl, rfl⟩,
          fun h => absurd h hc⟩
        rcases hdur with h | h
        · exact absurd hr.2.2.1 (not_le.2 h)
        · exact absurd hr.2.2.2 (not_le.2 h)
      · rw [if_neg (show ¬(now - ({ st with
          buffer := (smoothMetric st.buffer pAngle pConf).2 } :
          EngineState).lastRepTime < 500) from hdeb),
          if_neg (show ¬((now - ({ st with
            buffer := (smoothMetric st.buffer pAngle pConf).2 } :
            EngineState).repStartTime) / 1000 < 3/10 ∨
            (now - ({ st with
            buffer := (smoothMetric st.buffer pAngle pConf).2 } :
            EngineState).repStartTime) / 1000 > 10) from hdur)]
        push_neg at hdeb hdur
        exact ⟨⟨fun _ => ⟨not_lt.1 hc, hdeb, hdur.1, hdur.2⟩, fun _ => rfl⟩,
          fun _ => rfl, fun h => absurd h (by simp), fun h => absurd h hc⟩
end PeriodicGym

namespace PeriodicGym

/-- C3 witness: concrete instance — in `TRANSITIONING` since t=1000, last rep
at t=0, a frame at t=2000 with angle 170 (smoothed 170 > 160) and confidence
1.0 is accepted. -/
theorem c3_witness :
    (processFrame (⟨RepState.TRANSITIONING, 1000, 0, [], 0, 0, 0, ⟨[], []⟩⟩ :
        EngineState) true 170 1 80 1 squatThresholds 2000).1 = true :=
  ((c3_acceptance_conditions
      (⟨RepState.TRANSITIONING, 1000, 0, [], 0, 0, 0, ⟨[], []⟩⟩ : EngineState)
      170 1 80 1 squatThresholds 2000 rfl
      (by norm_num [smoothMetric, smoothLoop, decay, BUFFER_SIZE,
        List.range_succ, List.range_zero, List.foldl_cons, List.foldl_nil,
        squatThresholds])).1).mpr
    (by norm_num [MIN_CONFIDENCE_THRESHOLD])

end PeriodicGym

namespace PeriodicGym

/-! ## Smoother lemmas -/

/-- Lists of length at most five have one of six explicit shapes. -/
lemma list_shape_of_length_le5 (l : List ℚ) (h : l.length ≤ 5) :
    l = [] ∨ (∃ a, l = [a]) ∨ (∃ a b, l = [a, b]) ∨
    (∃ a b c, l = [a, b, c]) ∨ (∃ a b c d, l = [a, b, c, d]) ∨
    (∃ a b c d e, l = [a, b, c, d, e]) := by
  rcases l with _ | ⟨a, _ | ⟨b, _ | ⟨c, _ | ⟨d, _ | ⟨e, _ | ⟨f, rest⟩⟩⟩⟩⟩⟩
  · exact Or.inl rfl
  · exact Or.inr (Or.inl ⟨a, rfl⟩)
  · exact Or.inr (Or.inr (Or.inl ⟨a, b, rfl⟩))
  · exact Or.inr (Or.inr (Or.inr (Or.inl ⟨a, b, c, rfl⟩)))
  · exact Or.inr (Or.inr (Or.inr (Or.inr (Or.inl ⟨a, b, c, d, rfl⟩))))
  · exact Or.inr (Or.inr (Or.inr (Or.inr (Or.inr ⟨a, b, c, d, e, rfl⟩))))
  · simp at h

/-- The pair-accumulating fold of `smoothLoop` computes the two sums. -/
lemma foldl_pair_sum (f g : ℕ → ℚ) (l : List ℕ) (s : ℚ × ℚ) :
    l.foldl (fun acc i => (acc.1 + f i, acc.2 + g i)) s =
      (s.1 + (l.map f).sum, s.2 + (l.map g).sum) := by
  induction l generalizing s with
  | nil => simp
  | cons a t ih =>
    simp only [List.foldl_cons, List.map_cons, List.sum_cons, ih,
      Prod.mk.injEq]
    constructor <;> ring

/-- Summing a function over `List.range` is summing over `Finset.range`. -/
lemma range_map_sum (n : ℕ) (f : ℕ → ℚ) :
    ((List.range n).map f).sum = ∑ i in Finset.range n, f i := by
  induction n with
  | zero => simp
  | succ m ih =>
    rw [List.range_succ, List.map_append, List.sum_append,
      Finset.sum_range_succ, ih]
    simp

/-- `smoothLoop` equals the pair of weighted sums of the claim: sample `i`
of a buffer of length `n` carries weight `weights[i] * decay ^ (n - 1 - i)`. -/
lemma smoothLoop_eq_sums (values weights : List ℚ) :
    smoothLoop values weights =
      (∑ i in Finset.range values.length,
         values.getD i 0 * (weights.getD i 0 * decay ^ (values.length - 1 - i)),
       ∑ i in Finset.range values.length,
         weights.getD i 0 * decay ^ (values.length - 1 - i)) := by
  unfold smoothLoop
  rw [foldl_pair_sum
    (fun i => values.getD i 0 * (weights.getD i 0 * decay ^ (values.length - 1 - i)))
    (fun i => weights.getD i 0 * decay ^ (values.length - 1 - i))]
  rw [range_map_sum, range_map_sum]
  simp

/-- The returned smoothed value, read off the post-push buffer. -/
lemma smoothMetric_fst (buf : SmoothingBuffer) (v c : ℚ) :
    (smoothMetric buf v c).1 =
      if (smoothLoop (smoothMetric buf v c).2.values
            (smoothMetric buf v c).2.weights).2 > 0
      then (smoothLoop (smoothMetric buf v c).2.values
              (smoothMetric buf v c).2.weights).1 /
           (smoothLoop (smoothMetric buf v c).2.values
              (smoothMetric buf v c).2.weights).2
      else v := rfl

/-- Buffer after five identical pushes: exactly the five pushed pairs. -/
lemma push5_buffer (buf : SmoothingBuffer) (v c : ℚ)
    (hlen : buf.values.length = buf.weights.length)
    (hcap : buf.values.length ≤ BUFFER_SIZE) :
    (smoothMetric (smoothMetric (smoothMetric (smoothMetric
        (smoothMetric buf v c).2 v c).2 v c).2 v c).2 v c).2 =
      ⟨[v, v, v, v, v], [c, c, c, c, c]⟩ := by
  obtain ⟨vals, ws⟩ := buf
  have hlen2 : vals.length = ws.length := hlen
  have hcap2 : vals.length ≤ 5 := hcap
  rcases list_shape_of_length_le5 vals hcap2 with rfl | ⟨a1, rfl⟩ | ⟨a1, a2, rfl⟩ |
      ⟨a1, a2, a3, rfl⟩ | ⟨a1, a2, a3, a4, rfl⟩ | ⟨a1, a2, a3, a4, a5, rfl⟩ <;>
    rcases list_shape_of_length_le5 ws (hlen2 ▸ hcap2) with rfl | ⟨b1, rfl⟩ |
        ⟨b1, b2, rfl⟩ | ⟨b1, b2, b3, rfl⟩ | ⟨b1, b2, b3, b4, rfl⟩ |
        ⟨b1, b2, b3, b4, b5, rfl⟩ <;>
    norm_num [smoothMetric, BUFFER_SIZE]

/-- The total weight of five constant-confidence samples. -/
lemma smoothLoop_const (v c : ℚ) :
    smoothLoop [v, v, v, v, v] [c, c, c, c, c] =
      (v * (c * (2101/625)), c * (2101/625)) := by
  norm_num [smoothLoop, decay, List.range_succ, List.range_zero, Prod.ext_iff]
  constructor <;> ring

end PeriodicGym

namespace PeriodicGym

/-! ## C8: constant input is a fixed point of the smoother -/

/-- C8: pushing the pair `(v, c)` with `c > 0` five times in a row into the
smoother (starting from any buffer satisfying the engine invariant: parallel
sequences of equal length at most 5) returns `v` on the fifth call. -/
theorem c8_constant_smoothing (buf : SmoothingBuffer) (v c : ℚ)
    (hlen : buf.values.length = buf.weights.length)
    (hcap : buf.values.length ≤ BUFFER_SIZE) (hc : 0 < c) :
    (smoothMetric (smoothMetric (smoothMetric (smoothMetric
        (smoothMetric buf v c).2 v c).2 v c).2 v c).2 v c).1 = v := by
  rw [smoothMetric_fst, push5_buffer buf v c hlen hcap]
  simp only [smoothLoop_const]
  rw [if_pos (by positivity : (0:ℚ) < c * (2101/625))]
  rw [mul_div_assoc, div_self (ne_of_gt (by positivity)), mul_one]

/-- C8 witness: from the empty buffer, five pushes of value 7 with
confidence 1/2 return 7. -/
theorem c8_witness :
    (smoothMetric (smoothMetric (smoothMetric (smoothMetric
        (smoothMetric ⟨[], []⟩ 7 (1/2)).2 7 (1/2)).2 7 (1/2)).2 7 (1/2)).2
        7 (1/2)).1 = 7 :=
  c8_constant_smoothing ⟨[], []⟩ 7 (1/2) (by norm_num) (by norm_num)
    (by norm_num)

/-! ## C5: the smoother push/evict/average contract -/

/-- C5: one `smoothMetric` call on a buffer satisfying the engine invariant:
the buffer keeps at most 5 entries with the oldest evicted first, and the
returned value is the weighted average in which the sample at position `i`
of the post-push buffer of length `n` has weight
`confidence_i * decay ^ (n - 1 - i)`; if the total weight is zero the raw
pushed value is returned. -/
theorem c5_smoothMetric_spec (buf : SmoothingBuffer) (v c : ℚ)
    (hlen : buf.values.length = buf.weights.length)
    (hcap : buf.values.length ≤ BUFFER_SIZE) :
    ((smoothMetric buf v c).2.values.length ≤ BUFFER_SIZE ∧
      (smoothMetric buf v c).2.weights.length =
        (smoothMetric buf v c).2.values.length) ∧
    ((smoothMetric buf v c).2.values =
        if buf.values.length < BUFFER_SIZE then buf.values ++ [v]
        else (buf.values ++ [v]).drop 1) ∧
    ((smoothMetric buf v c).2.weights =
        if buf.values.length < BUFFER_SIZE then buf.weights ++ [c]
        else (buf.weights ++ [c]).drop 1) ∧
    (0 < (∑ i in Finset.range (smoothMetric buf v c).2.values.length,
        (smoothMetric buf v c).2.weights.getD i 0 *
          decay ^ ((smoothMetric buf v c).2.values.length - 1 - i)) →
      (smoothMetric buf v c).1 =
        (∑ i in Finset.range (smoothMetric buf v c).2.values.length,
          (smoothMetric buf v c).2.values.getD i 0 *
            ((smoothMetric buf v c).2.weights.getD i 0 *
              decay ^ ((smoothMetric buf v c).2.values.length - 1 - i))) /
        (∑ i in Finset.range (smoothMetric buf v c).2.values.length,
          (smoothMetric buf v c).2.weights.getD i 0 *
            decay ^ ((smoothMetric buf v c).2.values.length - 1 - i))) ∧
    ((∑ i in Finset.range (smoothMetric buf v c).2.values.length,
        (smoothMetric buf v c).2.weights.getD i 0 *
          decay ^ ((smoothMetric buf v c).2.values.length - 1 - i)) = 0 →
      (smoothMetric buf v c).1 = v) := by
  have hv : (smoothMetric buf v c).2.values =
      if (buf.values ++ [v]).length > BUFFER_SIZE
      then (buf.values ++ [v]).drop 1 else buf.values ++ [v] := rfl
  have hw : (smoothMetric buf v c).2.weights =
      if (buf.weights ++ [c]).length > BUFFER_SIZE
      then (buf.weights ++ [c]).drop 1 else buf.weights ++ [c] := rfl
  refine ⟨?_, ?_, ?_, ?_, ?_⟩
  · rw [hv, hw]
    split_ifs <;> constructor <;>
      simp_all [List.length_append, List.length_drop, BUFFER_SIZE] <;> omega
  · rw [hv]
    simp only [List.length_append, List.length_cons, List.length_nil,
      BUFFER_SIZE, gt_iff_lt]
    by_cases h : buf.values.length < 5
    · rw [if_pos h, if_neg (by omega)]
    · rw [if_neg h, if_pos (by omega)]
  · rw [hw]
    simp only [List.length_append, List.length_cons, List.length_nil,
      BUFFER_SIZE, gt_iff_lt]
    have hwl : buf.weights.length = buf.values.length := hlen.symm
    by_cases h : buf.values.length < 5
    · rw [if_pos h, if_neg (by omega)]
    · rw [if_neg h, if_pos (by omega)]
  · intro h
    rw [smoothMetric_fst buf v c, smoothLoop_eq_sums]
    dsimp only
    rw [if_pos h]
  · intro h0
    rw [smoothMetric_fst buf v c, smoothLoop_eq_sums]
    dsimp only
    rw [h0, if_neg (lt_irrefl 0)]

/-- C5 witness: pushing value 3 with confidence 1 onto the buffer holding
values [1, 2] with weights [1, 1] appends without eviction. -/
theorem c5_witness :
    (smoothMetric ⟨[1, 2], [1, 1]⟩ 3 1).2.values = [1, 2, 3] := by
  have h := (c5_smoothMetric_spec ⟨[1, 2], [1, 1]⟩ 3 1 (by decide)
    (by decide)).2.1
  rw [h, if_pos (by decide)]
  rfl

end PeriodicGym

namespace PeriodicGym

/-! ## Geometry helper lemmas -/

/-- An arccos scaled to degrees lies in [0, 180]. -/
lemma arccos_deg_range (x : ℝ) :
    0 ≤ Real.arccos x * (180 / Real.pi) ∧
    Real.arccos x * (180 / Real.pi) ≤ 180 := by
  constructor
  · exact mul_nonneg (Real.arccos_nonneg x) (by positivity)
  · calc Real.arccos x * (180 / Real.pi)
        ≤ Real.pi * (180 / Real.pi) :=
          mul_le_mul_of_nonneg_right (Real.arccos_le_pi x) (by positivity)
      _ = 180 := by field_simp

/-- Rounding a real at most 100 yields at most 100. -/
lemma round_le_hundred (q : ℝ) (hq : q ≤ 100) : ((round q : ℤ) : ℝ) ≤ 100 := by
  have h1 : ((round q : ℤ) : ℝ) ≤ q + 1/2 := by
    rw [round_eq]
    exact_mod_cast Int.floor_le (q + 1/2)
  have h2 : ((round q : ℤ) : ℝ) < 101 := by linarith
  have h3 : round q < (101 : ℤ) := by exact_mod_cast h2
  have h4 : round q ≤ (100 : ℤ) := by omega
  exact_mod_cast h4

/-- Rounding a nonnegative real is nonnegative. -/
lemma round_cast_nonneg (q : ℝ) (hq : 0 ≤ q) : (0:ℝ) ≤ ((round q : ℤ) : ℝ) := by
  have h : (0 : ℤ) ≤ round q := by
    rw [round_eq]
    exact Int.floor_nonneg.2 (by linarith)
  exact_mod_cast h

/-! ## C10: the 3D angle is total with range [0, 180] -/

/-- C10: for all points, `calculateAngle` returns a value in [0, 180]: the
cosine argument is clamped before arccos and the zero-magnitude guard
returns 0. -/
theorem c10_calculateAngle_range (a b c : Point) :
    0 ≤ calculateAngle a b c ∧ calculateAngle a b c ≤ 180 := by
  unfold calculateAngle
  dsimp only
  split_ifs with h
  · norm_num
  · exact arccos_deg_range _

/-! ## C9: degenerate geometric inputs -/

/-- C9: degenerate inputs produce defined values: the 3D angle is 0 whenever
either vector from the vertex has zero magnitude, `pointToLineDistance` with
a degenerate baseline `a = b` is the distance from `p` to `a`, and the
divisor `magBA * magBC` of the angle formula cannot be zero when both guards
have been passed. -/
theorem c9_degenerate_inputs :
    (∀ a b c : Point,
      magnitude (subtractVectors (toVector3D a) (toVector3D b)) = 0 ∨
        magnitude (subtractVectors (toVector3D c) (toVector3D b)) = 0 →
      calculateAngle a b c = 0) ∧
    (∀ p a : Point, pointToLineDistance p a a = calculateDistance p a) ∧
    (∀ u w : Vector3D, magnitude u ≠ 0 → magnitude w ≠ 0 →
      magnitude u * magnitude w ≠ 0) := by
  refine ⟨?_, ?_, ?_⟩
  · intro a b c h
    unfold calculateAngle
    rw [if_pos h]
  · intro p a
    have hz : magnitude (subtractVectors (toVector3D a) (toVector3D a)) = 0 := by
      simp [magnitude, subtractVectors, Real.sqrt_zero]
    unfold pointToLineDistance
    rw [if_pos hz]
    rfl
  · intro u w hu hw
    exact mul_ne_zero hu hw

/-- C9 witness: concrete degenerate instances. -/
theorem c9_witness :
    calculateAngle ⟨1, 2, none, none⟩ ⟨1, 2, none, none⟩ ⟨0, 0, none, none⟩ = 0 ∧
    pointToLineDistance ⟨3, 4, none, none⟩ ⟨1, 1, none, none⟩ ⟨1, 1, none, none⟩ =
      calculateDistance ⟨3, 4, none, none⟩ ⟨1, 1, none, none⟩ ∧
    magnitude ⟨1, 0, 0⟩ * magnitude ⟨0, 1, 0⟩ ≠ 0 :=
  ⟨c9_degenerate_inputs.1 _ _ _
      (Or.inl (by simp [magnitude, subtractVectors, toVector3D, Real.sqrt_zero])),
   c9_degenerate_inputs.2.1 _ _,
   c9_degenerate_inputs.2.2 _ _
      (by simp [magnitude]) (by simp [magnitude])⟩

/-! ## C6: frames with missing or low-visibility landmarks -/

/-- A frame with a required index that is absent or below the visibility
threshold fails `validateLandmarks`. -/
lemma not_validate_of_bad (lm : List Point) (idxs : List ℕ)
    (h : ∃ i ∈ idxs, lm.get? i = none ∨
      ∃ p, lm.get? i = some p ∧ p.visibility.getD 1 < 0.5) :
    ¬ validateLandmarks lm idxs := by
  intro hv
  obtain ⟨i, hi, hbad⟩ := h
  obtain ⟨p, hp, hvis⟩ := hv i hi
  rcases hbad with h0 | ⟨q, hq, hlt⟩
  · rw [h0] at hp
    cases hp
  · rw [hq] at hp
    injection hp with hpq
    subst hpq
    exact absurd hvis (not_le.2 hlt)

/-- C6: whenever some required landmark of the selected analyzer is absent or
has visibility below 0.5, the analyzer returns (does not throw) the record
with `isValid = false`, `quality = 0`, `confidence = 0`, empty metrics, and
exactly the single positioning-instruction feedback string. -/
theorem c6_insufficient_landmarks (lm : List Point) :
    ((∃ i ∈ backRowRequired, lm.get? i = none ∨
        ∃ p, lm.get? i = some p ∧ p.visibility.getD 1 < 0.5) →
      analyzeBackRow lm = ⟨["Posicione-se de lado para a câmera"], [],
        Phase.rest, false, 0, 0⟩) ∧
    ((∃ i ∈ squatRequired, lm.get? i = none ∨
        ∃ p, lm.get? i = some p ∧ p.visibility.getD 1 < 0.5) →
      analyzeSquat lm = ⟨["Posicione-se de frente ou de costas para a câmera"],
        [], Phase.rest, false, 0, 0⟩) ∧
    ((∃ i ∈ pushUpRequired, lm.get? i = none ∨
        ∃ p, lm.get? i = some p ∧ p.visibility.getD 1 < 0.5) →
      analyzePushUp lm = ⟨["Posicione-se de lado para a câmera"], [],
        Phase.rest, false, 0, 0⟩) := by
  refine ⟨fun h => ?_, fun h => ?_, fun h => ?_⟩
  · unfold analyzeBackRow
    rw [if_neg (not_validate_of_bad lm backRowRequired h)]
  · unfold analyzeSquat
    rw [if_neg (not_validate_of_bad lm squatRequired h)]
  · unfold analyzePushUp
    rw [if_neg (not_validate_of_bad lm pushUpRequired h)]

/-- C6 witness: the empty frame is rejected by all three analyzers. -/
theorem c6_witness :
    analyzeBackRow [] = ⟨["Posicione-se de lado para a câmera"], [],
      Phase.rest, false, 0, 0⟩ ∧
    analyzeSquat [] = ⟨["Posicione-se de frente ou de costas para a câmera"],
      [], Phase.rest, false, 0, 0⟩ ∧
    analyzePushUp [] = ⟨["Posicione-se de lado para a câmera"], [],
      Phase.rest, false, 0, 0⟩ :=
  ⟨(c6_insufficient_landmarks []).1 ⟨11, by decide, Or.inl rfl⟩,
   (c6_insufficient_landmarks []).2.1 ⟨11, by decide, Or.inl rfl⟩,
   (c6_insufficient_landmarks []).2.2 ⟨11, by decide, Or.inl rfl⟩⟩

end PeriodicGym

namespace PeriodicGym

/-! ## Bounds helper lemmas for the analyzers -/

/-- The visibility read by the analyzers lies in [0,1] for frames whose
stored visibilities lie in [0,1]. -/
lemma vis_getD_range (lm : List Point) (p : Point)
    (hvis : ∀ q ∈ lm, ∀ v, q.visibility = some v → 0 ≤ v ∧ v ≤ 1)
    (hp : p ∈ lm) : 0 ≤ p.visibility.getD 1 ∧ p.visibility.getD 1 ≤ 1 := by
  cases hv : p.visibility with
  | none => simp
  | some v =>
    simpa [hv] using hvis p hp v hv

/-- `getAverageConfidence` lies in [0,1] for frames whose visibilities lie
in [0,1]. -/
lemma getAverageConfidence_range (lm : List Point) (idxs : List ℕ)
    (hvis : ∀ q ∈ lm, ∀ v, q.visibility = some v → 0 ≤ v ∧ v ≤ 1) :
    0 ≤ getAverageConfidence lm idxs ∧ getAverageConfidence lm idxs ≤ 1 := by
  unfold getAverageConfidence
  dsimp only
  split_ifs with h
  · norm_num
  · have hbound : ∀ x ∈ (idxs.filter fun i => (lm.get? i).isSome).map
        (fun i => (getP lm i).visibility.getD 1), 0 ≤ x ∧ x ≤ 1 := by
      intro x hx
      obtain ⟨i, hi, rfl⟩ := List.mem_map.1 hx
      have hsome : (lm.get? i).isSome := by
        have := List.mem_filter.1 hi
        simpa using this.2
      obtain ⟨p, hp⟩ := Option.isSome_iff_exists.1 hsome
      have hgetP : getP lm i = p := by
        unfold getP
        rw [List.getD_eq_getElem?_getD]
        simp [List.get?_eq_getElem?] at hp
        simp [hp]
      rw [hgetP]
      exact vis_getD_range lm p hvis (List.get?_mem hp)
    have hlen : 0 < ((idxs.filter fun i => (lm.get? i).isSome).length : ℝ) := by
      have := Nat.pos_of_ne_zero h
      exact_mod_cast this
    constructor
    · apply div_nonneg _ (le_of_lt hlen)
      exact List.sum_nonneg fun x hx => (hbound x hx).1
    · rw [div_le_one hlen]
      calc ((idxs.filter fun i => (lm.get? i).isSome).map
            (fun i => (getP lm i).visibility.getD 1)).sum
          ≤ ((idxs.filter fun i => (lm.get? i).isSome).map
            (fun i => (getP lm i).visibility.getD 1)).length • (1:ℝ) :=
            List.sum_le_card_nsmul _ 1 fun x hx => (hbound x hx).2
        _ = ((idxs.filter fun i => (lm.get? i).isSome).length : ℝ) := by
            simp [List.length_map]

/-- All fixed penalties are nonnegative. -/
lemma rowTorsoPenalty_nonneg (t : ℝ) : 0 ≤ rowTorsoPenalty t := by
  unfold rowTorsoPenalty
  split_ifs <;> norm_num

lemma rowShoulderPenalty_nonneg (y z : ℝ) : 0 ≤ rowShoulderPenalty y z := by
  unfold rowShoulderPenalty
  split_ifs <;> norm_num

lemma rowElbowPenalty_nonneg (a : ℝ) : 0 ≤ rowElbowPenalty a := by
  unfold rowElbowPenalty
  split_ifs <;> norm_num

lemma rowProximityPenalty_nonneg (d : ℝ) : 0 ≤ rowProximityPenalty d := by
  unfold rowProximityPenalty
  split_ifs <;> norm_num

lemma squatDepthPenalty_nonneg (a : ℝ) : 0 ≤ squatDepthPenalty a := by
  unfold squatDepthPenalty
  split_ifs <;> norm_num

lemma squatTorsoPenalty_nonneg (t : ℝ) : 0 ≤ squatTorsoPenalty t := by
  unfold squatTorsoPenalty
  split_ifs <;> norm_num

lemma squatKneeForwardPenalty_nonneg (r : ℝ) : 0 ≤ squatKneeForwardPenalty r := by
  unfold squatKneeForwardPenalty
  split_ifs <;> norm_num

/-- The variable leg-asymmetry penalty is nonnegative. -/
lemma squatAsymmetryPenalty_nonneg (asym : ℝ) : 0 ≤ squatAsymmetryPenalty asym := by
  unfold squatAsymmetryPenalty
  split_ifs with h
  · exact le_min (by norm_num) (round_cast_nonneg _ (by linarith))
  · norm_num

lemma squatLateralPenalty_nonneg (s : ℝ) : 0 ≤ squatLateralPenalty s := by
  unfold squatLateralPenalty
  split_ifs <;> norm_num

lemma pushDepthPenalty_nonneg (a : ℝ) : 0 ≤ pushDepthPenalty a := by
  unfold pushDepthPenalty
  split_ifs <;> norm_num

lemma pushAlignmentPenalty_nonneg (d b : ℝ) : 0 ≤ pushAlignmentPenalty d b := by
  unfold pushAlignmentPenalty
  split_ifs <;> norm_num

lemma pushFlarePenalty_nonneg (f : ℝ) : 0 ≤ pushFlarePenalty f := by
  unfold pushFlarePenalty
  split_ifs <;> norm_num

lemma sub_three_le_hundred (a b c : ℝ) (h1 : 0 ≤ a) (h2 : 0 ≤ b)
    (h3 : 0 ≤ c) : 100 - a - b - c ≤ 100 := by linarith

lemma sub_four_le_hundred (a b c d : ℝ) (h1 : 0 ≤ a) (h2 : 0 ≤ b)
    (h3 : 0 ≤ c) (h4 : 0 ≤ d) : 100 - a - b - c - d ≤ 100 := by linarith

lemma sub_five_le_hundred (a b c d e : ℝ) (h1 : 0 ≤ a) (h2 : 0 ≤ b)
    (h3 : 0 ≤ c) (h4 : 0 ≤ d) (h5 : 0 ≤ e) :
    100 - a - b - c - d - e ≤ 100 := by linarith

/-- Bounds of the back-row analyzer. -/
lemma analyzeBackRow_bounds (lm : List Point)
    (hvis : ∀ q ∈ lm, ∀ v, q.visibility = some v → 0 ≤ v ∧ v ≤ 1) :
    0 ≤ (analyzeBackRow lm).quality ∧ (analyzeBackRow lm).quality ≤ 100 ∧
    0 ≤ (analyzeBackRow lm).confidence ∧ (analyzeBackRow lm).confidence ≤ 1 := by
  unfold analyzeBackRow
  split_ifs with h
  · dsimp only
    obtain ⟨hc0, hc1⟩ := getAverageConfidence_range lm backRowRequired hvis
    refine ⟨le_max_left _ _, ?_, hc0, hc1⟩
    exact max_le (by norm_num)
      (round_le_hundred _ (sub_four_le_hundred _ _ _ _
        (rowTorsoPenalty_nonneg _) (rowShoulderPenalty_nonneg _ _)
        (rowElbowPenalty_nonneg _) (rowProximityPenalty_nonneg _)))
  · norm_num

/-- Bounds of the squat analyzer. -/
lemma analyzeSquat_bounds (lm : List Point)
    (hvis : ∀ q ∈ lm, ∀ v, q.visibility = some v → 0 ≤ v ∧ v ≤ 1) :
    0 ≤ (analyzeSquat lm).quality ∧ (analyzeSquat lm).quality ≤ 100 ∧
    0 ≤ (analyzeSquat lm).confidence ∧ (analyzeSquat lm).confidence ≤ 1 := by
  unfold analyzeSquat
  split_ifs with h
  · dsimp only
    obtain ⟨hc0, hc1⟩ := getAverageConfidence_range lm squatRequired hvis
    refine ⟨le_max_left _ _, ?_, hc0, hc1⟩
    exact max_le (by norm_num)
      (round_le_hundred _ (sub_five_le_hundred _ _ _ _ _
        (squatDepthPenalty_nonneg _) (squatTorsoPenalty_nonneg _)
        (squatKneeForwardPenalty_nonneg _) (squatAsymmetryPenalty_nonneg _)
        (squatLateralPenalty_nonneg _)))
  · norm_num

/-- Bounds of the push-up analyzer. -/
lemma analyzePushUp_bounds (lm : List Point)
    (hvis : ∀ q ∈ lm, ∀ v, q.visibility = some v → 0 ≤ v ∧ v ≤ 1) :
    0 ≤ (analyzePushUp lm).quality ∧ (analyzePushUp lm).quality ≤ 100 ∧
    0 ≤ (analyzePushUp lm).confidence ∧ (analyzePushUp lm).confidence ≤ 1 := by
  unfold analyzePushUp
  split_ifs with h
  · dsimp only
    obtain ⟨hc0, hc1⟩ := getAverageConfidence_range lm pushUpRequired hvis
    refine ⟨le_max_left _ _, ?_, hc0, hc1⟩
    exact max_le (by norm_num)
      (round_le_hundred _ (sub_three_le_hundred _ _ _
        (pushDepthPenalty_nonneg _) (pushAlignmentPenalty_nonneg _ _)
        (pushFlarePenalty_nonneg _)))
  · norm_num

/-! ## C7: dispatcher output bounds -/

/-- C7: for every exercise name and every frame whose stored visibilities lie
in [0,1], the dispatched `BiomechanicalAnalysis` satisfies
`quality ∈ [0,100]` and `confidence ∈ [0,1]`. -/
theorem c7_analysis_bounds (exercise : String) (lm : List Point)
    (hvis : ∀ q ∈ lm, ∀ v, q.visibility = some v → 0 ≤ v ∧ v ≤ 1) :
    0 ≤ (analyzeExercise exercise lm).quality ∧
    (analyzeExercise exercise lm).quality ≤ 100 ∧
    0 ≤ (analyzeExercise exercise lm).confidence ∧
    (analyzeExercise exercise lm).confidence ≤ 1 := by
  unfold analyzeExercise
  dsimp only
  split_ifs with h1 h2 h3
  · exact analyzeBackRow_bounds lm hvis
  · exact analyzeSquat_bounds lm hvis
  · exact analyzePushUp_bounds lm hvis
  · norm_num

/-- C7 witness: the squat analyzer on the empty frame. -/
theorem c7_witness :
    0 ≤ (analyzeExercise "agachamento" []).quality ∧
    (analyzeExercise "agachamento" []).quality ≤ 100 ∧
    0 ≤ (analyzeExercise "agachamento" []).confidence ∧
    (analyzeExercise "agachamento" []).confidence ≤ 1 :=
  c7_analysis_bounds "agachamento" [] (by simp)

end PeriodicGym

namespace PeriodicGym

/-! ## C4: penalty structure of the analyzers -/

lemma sqrt_sq_self (x : ℝ) (hx : 0 ≤ x) : Real.sqrt (x * x) = x := by
  rw [Real.sqrt_mul_self hx]

lemma angle_collinear_y (x0 yA yB yC : ℝ) (h1 : yB < yA) (h2 : yC < yB) :
    calculateAngle ⟨x0, yA, none, none⟩ ⟨x0, yB, none, none⟩
      ⟨x0, yC, none, none⟩ = 180 := by
  unfold calculateAngle toVector3D subtractVectors dotProduct magnitude
  dsimp only
  norm_num
  have hBA : Real.sqrt ((yA - yB) * (yA - yB)) = yA - yB :=
    sqrt_sq_self _ (by linarith)
  have hBC : Real.sqrt ((yC - yB) * (yC - yB)) = yB - yC := by
    rw [show (yC - yB) * (yC - yB) = (yB - yC) * (yB - yC) by ring]
    exact sqrt_sq_self _ (by linarith)
  rw [hBA, hBC]
  rw [if_neg (by push_neg; constructor <;> intro h <;> nlinarith)]
  have hcos : (yA - yB) * (yC - yB) / ((yA - yB) * (yB - yC)) = -1 := by
    rw [show (yA - yB) * (yC - yB) = -((yA - yB) * (yB - yC)) by ring]
    rw [neg_div, div_self (ne_of_gt (by nlinarith))]
  rw [hcos]
  norm_num
  field_simp



lemma calculateAngle_of_subs (a b c : Point) (u w : Vector3D)
    (hu : subtractVectors (toVector3D a) (toVector3D b) = u)
    (hw : subtractVectors (toVector3D c) (toVector3D b) = w) :
    calculateAngle a b c =
      if magnitude u = 0 ∨ magnitude w = 0 then 0
      else Real.arccos (max (-1) (min 1 (dotProduct u w /
        (magnitude u * magnitude w)))) * (180 / Real.pi) := by
  unfold calculateAngle
  dsimp only
  rw [hu, hw]

lemma angle_cos_construction (θ : ℝ) (h0 : 0 ≤ θ) (hπ : θ ≤ Real.pi) :
    calculateAngle
      ⟨1 + Real.sin θ / 10, 1/2 - Real.cos θ / 10, none, none⟩
      ⟨1, 1/2, none, none⟩ ⟨1, 0, none, none⟩ =
      θ * (180 / Real.pi) := by
  have hu : subtractVectors
      (toVector3D ⟨1 + Real.sin θ / 10, 1/2 - Real.cos θ / 10, none, none⟩)
      (toVector3D ⟨1, 1/2, none, none⟩) =
      ⟨Real.sin θ / 10, -(Real.cos θ / 10), 0⟩ := by
    unfold subtractVectors toVector3D
    dsimp only [Option.getD_none]
    simp only [Vector3D.mk.injEq]
    refine ⟨by ring, by ring, by ring⟩
  have hw : subtractVectors (toVector3D ⟨1, 0, none, none⟩)
      (toVector3D ⟨1, 1/2, none, none⟩) = ⟨0, -(1/2), 0⟩ := by
    unfold subtractVectors toVector3D
    dsimp only [Option.getD_none]
    simp only [Vector3D.mk.injEq]
    refine ⟨by ring, by ring, by ring⟩
  rw [calculateAngle_of_subs _ _ _ _ _ hu hw]
  have hmu : magnitude ⟨Real.sin θ / 10, -(Real.cos θ / 10), 0⟩ = 1/10 := by
    unfold magnitude
    dsimp only
    rw [show (Real.sin θ / 10 * (Real.sin θ / 10) +
        -(Real.cos θ / 10) * -(Real.cos θ / 10) + 0 * 0) =
        (Real.sin θ ^ 2 + Real.cos θ ^ 2) / 100 by ring]
    rw [Real.sin_sq_add_cos_sq]
    rw [show ((1:ℝ)/100) = (1/10)^2 by norm_num]
    exact Real.sqrt_sq (by norm_num)
  have hmw : magnitude ⟨0, -(1/2), 0⟩ = 1/2 := by
    unfold magnitude
    dsimp only
    rw [show ((0:ℝ) * 0 + -(1/2) * -(1/2) + 0 * 0) = (1/2)^2 by norm_num]
    exact Real.sqrt_sq (by norm_num)
  rw [if_neg (by rw [hmu, hmw]; norm_num), hmu, hmw]
  have hdot : dotProduct ⟨Real.sin θ / 10, -(Real.cos θ / 10), 0⟩
      ⟨0, -(1/2), 0⟩ = Real.cos θ / 20 := by
    unfold dotProduct
    dsimp only
    ring
  rw [hdot]
  rw [show (Real.cos θ / 20 / (1/10 * (1/2))) = Real.cos θ by ring]
  rw [min_eq_right (Real.cos_le_one θ), max_eq_right (Real.neg_one_le_cos θ)]
  rw [Real.arccos_cos h0 hπ]



lemma c4theta_nonneg : 0 ≤ c4theta := by
  unfold c4theta
  positivity

lemma c4theta_le_pi : c4theta ≤ Real.pi := by
  unfold c4theta
  linarith [Real.pi_pos]

lemma c4theta_deg : c4theta * (180 / Real.pi) = 164 := by
  unfold c4theta
  field_simp
  ring

lemma c4frame_valid : validateLandmarks c4frame squatRequired := by
  intro i hi
  fin_cases hi <;> exact ⟨_, rfl, by norm_num [isVisible]⟩

lemma c4frame_confidence : getAverageConfidence c4frame squatRequired = 1 := by
  unfold getAverageConfidence
  dsimp only
  rw [show squatRequired.filter (fun i => (c4frame.get? i).isSome) =
    squatRequired from rfl]
  rw [if_neg (by norm_num [squatRequired])]
  rw [show squatRequired.map (fun i => (getP c4frame i).visibility.getD 1) =
    [1, 1, 1, 1, 1, 1, 1] from rfl]
  norm_num [squatRequired]



lemma c4_kneeL : calculateWeightedAngle (⟨0, 1, none, none⟩ : Point)
    ⟨0, 1/2, none, none⟩ ⟨0, 0, none, none⟩ = (180, 1) := by
  unfold calculateWeightedAngle
  dsimp only [Option.getD_none]
  rw [angle_collinear_y 0 1 (1/2) 0 (by norm_num) (by norm_num)]
  norm_num

lemma c4_torso : calculateAngle (⟨0, 2, none, none⟩ : Point)
    ⟨0, 1, none, none⟩ ⟨0, 1/2, none, none⟩ = 180 :=
  angle_collinear_y 0 2 1 (1/2) (by norm_num) (by norm_num)

lemma c4_kneeR : calculateAngle
    (⟨1 + Real.sin c4theta / 10, 1/2 - Real.cos c4theta / 10, none, none⟩ :
      Point) ⟨1, 1/2, none, none⟩ ⟨1, 0, none, none⟩ = 164 := by
  rw [angle_cos_construction c4theta c4theta_nonneg c4theta_le_pi, c4theta_deg]

lemma c4_dist2 : calculateDistance2D (⟨0, 1/2, none, none⟩ : Point)
    ⟨0, 0, none, none⟩ = 1/2 := by
  unfold calculateDistance2D
  dsimp only
  rw [show ((0:ℝ) - 0) * (0 - 0) + (1/2 - 0) * (1/2 - 0) = (1/2)^2 by norm_num]
  exact Real.sqrt_sq (by norm_num)

lemma c4_asym_penalty : squatAsymmetryPenalty 16 = 8 := by
  unfold squatAsymmetryPenalty
  rw [if_pos (by norm_num)]
  rw [show ((16:ℝ) * 0.5) = ((8:ℤ):ℝ) by norm_num]
  rw [round_intCast]
  norm_num

lemma c4_analyzeSquat_eq :
    analyzeSquat c4frame =
      ⟨["Posição inicial - desça controladamente",
        "Distribua o peso uniformemente entre as pernas"],
       [("kneeAngle", 180), ("kneeConfidence", 1), ("torsoAngle", 180),
        ("kneeForwardRatio", 0), ("legAsymmetry", 16),
        ("lateralShift", Real.sin c4theta / 20)],
       Phase.rest, true, 92, 1⟩ := by
  have hsin0 : 0 ≤ Real.sin c4theta :=
    Real.sin_nonneg_of_nonneg_of_le_pi c4theta_nonneg c4theta_le_pi
  have hsin1 : Real.sin c4theta ≤ 1 := Real.sin_le_one _
  have hshift : |((0:ℝ) + (1 + Real.sin c4theta / 10)) / 2 - (0 + 1) / 2| =
      Real.sin c4theta / 20 := by
    rw [show ((0:ℝ) + (1 + Real.sin c4theta / 10)) / 2 - (0 + 1) / 2 =
      Real.sin c4theta / 20 by ring]
    exact abs_of_nonneg (by linarith)
  have hlat : squatLateralPenalty (Real.sin c4theta / 20) = 0 := by
    unfold squatLateralPenalty
    rw [if_neg (by push_neg; nlinarith)]
  have hlatf : squatLateralFeedback (Real.sin c4theta / 20) = [] := by
    unfold squatLateralFeedback
    rw [if_neg (by push_neg; nlinarith)]
  have hasymf : squatAsymmetryFeedback 16 =
      ["Distribua o peso uniformemente entre as pernas"] := by
    unfold squatAsymmetryFeedback
    rw [if_pos (by norm_num)]
  unfold analyzeSquat
  rw [if_pos c4frame_valid]
  dsimp only
  rw [show getP c4frame 11 = ⟨0, 2, none, none⟩ from rfl,
      show getP c4frame 23 = ⟨0, 1, none, none⟩ from rfl,
      show getP c4frame 24 = ⟨1 + Real.sin c4theta / 10,
        1/2 - Real.cos c4theta / 10, none, none⟩ from rfl,
      show getP c4frame 25 = ⟨0, 1/2, none, none⟩ from rfl,
      show getP c4frame 26 = ⟨1, 1/2, none, none⟩ from rfl,
      show getP c4frame 27 = ⟨0, 0, none, none⟩ from rfl,
      show getP c4frame 28 = ⟨1, 0, none, none⟩ from rfl]
  dsimp only
  rw [c4_kneeL]
  dsimp only
  rw [c4_torso, c4_kneeR, c4_dist2, c4frame_confidence]
  rw [show |((180:ℝ)) - 164| = 16 by norm_num]
  rw [hshift, c4_asym_penalty, hlat, hlatf, hasymf]
  norm_num [squatDepthPenalty, squatTorsoPenalty, squatKneeForwardPenalty,
    squatDepthFeedback, squatTorsoFeedback, squatKneeForwardFeedback,
    squatPhase, BiomechanicalAnalysis.mk.injEq]

/-- C4 counterexample: on the concrete frame `c4frame` the leg-asymmetry
rule fires (asymmetry 16 > 15) yet the quality is 92, i.e. the amount
subtracted is 8 — no penalty in [10, 20] can produce a quality of 92 from
100, so the penalty for this rule is not a fixed 10–20 points. -/
theorem c4_counterexample :
    (analyzeSquat c4frame).metrics =
      [("kneeAngle", 180), ("kneeConfidence", 1), ("torsoAngle", 180),
       ("kneeForwardRatio", 0), ("legAsymmetry", 16),
       ("lateralShift", Real.sin c4theta / 20)] ∧
    (15 : ℝ) < 16 ∧
    (analyzeSquat c4frame).quality = 92 ∧
    (∀ p : ℝ, 10 ≤ p → p ≤ 20 → (100 : ℝ) - p ≠ 92) := by
  refine ⟨?_, by norm_num, ?_, ?_⟩
  · rw [c4_analyzeSquat_eq]
  · rw [c4_analyzeSquat_eq]
  · intro p h1 h2 heq
    linarith



/-- C4 (amended): every analyzer penalty is a fixed amount between 10 and
20 points when its rule fires — except the squat leg-asymmetry penalty,
which is the variable amount `min 20 (round (0.5 * asymmetry))` and lies in
[8, 20] when the rule fires (asymmetry > 15); penalties are additive and
evaluated independently, and quality is clamped at 0, never negative. -/
theorem c4_amended :
    (∀ t, rowTorsoPenalty t = 0 ∨
      (10 ≤ rowTorsoPenalty t ∧ rowTorsoPenalty t ≤ 20)) ∧
    (∀ y z, rowShoulderPenalty y z = 0 ∨
      (10 ≤ rowShoulderPenalty y z ∧ rowShoulderPenalty y z ≤ 20)) ∧
    (∀ a, rowElbowPenalty a = 0 ∨
      (10 ≤ rowElbowPenalty a ∧ rowElbowPenalty a ≤ 20)) ∧
    (∀ d, rowProximityPenalty d = 0 ∨
      (10 ≤ rowProximityPenalty d ∧ rowProximityPenalty d ≤ 20)) ∧
    (∀ a, squatDepthPenalty a = 0 ∨
      (10 ≤ squatDepthPenalty a ∧ squatDepthPenalty a ≤ 20)) ∧
    (∀ t, squatTorsoPenalty t = 0 ∨
      (10 ≤ squatTorsoPenalty t ∧ squatTorsoPenalty t ≤ 20)) ∧
    (∀ r, squatKneeForwardPenalty r = 0 ∨
      (10 ≤ squatKneeForwardPenalty r ∧ squatKneeForwardPenalty r ≤ 20)) ∧
    (∀ s, squatLateralPenalty s = 0 ∨
      (10 ≤ squatLateralPenalty s ∧ squatLateralPenalty s ≤ 20)) ∧
    (∀ a, pushDepthPenalty a = 0 ∨
      (10 ≤ pushDepthPenalty a ∧ pushDepthPenalty a ≤ 20)) ∧
    (∀ d b, pushAlignmentPenalty d b = 0 ∨
      (10 ≤ pushAlignmentPenalty d b ∧ pushAlignmentPenalty d b ≤ 20)) ∧
    (∀ f, pushFlarePenalty f = 0 ∨
      (10 ≤ pushFlarePenalty f ∧ pushFlarePenalty f ≤ 20)) ∧
    (∀ asym : ℝ, 15 < asym →
      squatAsymmetryPenalty asym = min 20 ((round (asym * 0.5) : ℤ) : ℝ) ∧
      8 ≤ squatAsymmetryPenalty asym ∧ squatAsymmetryPenalty asym ≤ 20) ∧
    (∀ lm, 0 ≤ (analyzeBackRow lm).quality ∧ 0 ≤ (analyzeSquat lm).quality ∧
      0 ≤ (analyzePushUp lm).quality) := by
  refine ⟨?_, ?_, ?_, ?_, ?_, ?_, ?_, ?_, ?_, ?_, ?_, ?_, ?_⟩
  · intro t
    unfold rowTorsoPenalty
    split_ifs <;> first | exact Or.inl rfl | exact Or.inr ⟨by norm_num, by norm_num⟩
  · intro y z
    unfold rowShoulderPenalty
    split_ifs <;> first | exact Or.inl rfl | exact Or.inr ⟨by norm_num, by norm_num⟩
  · intro a
    unfold rowElbowPenalty
    split_ifs <;> first | exact Or.inl rfl | exact Or.inr ⟨by norm_num, by norm_num⟩
  · intro d
    unfold rowProximityPenalty
    split_ifs <;> first | exact Or.inl rfl | exact Or.inr ⟨by norm_num, by norm_num⟩
  · intro a
    unfold squatDepthPenalty
    split_ifs <;> first | exact Or.inl rfl | exact Or.inr ⟨by norm_num, by norm_num⟩
  · intro t
    unfold squatTorsoPenalty
    split_ifs <;> first | exact Or.inl rfl | exact Or.inr ⟨by norm_num, by norm_num⟩
  · intro r
    unfold squatKneeForwardPenalty
    split_ifs <;> first | exact Or.inl rfl | exact Or.inr ⟨by norm_num, by norm_num⟩
  · intro s
    unfold squatLateralPenalty
    split_ifs <;> first | exact Or.inl rfl | exact Or.inr ⟨by norm_num, by norm_num⟩
  · intro a
    unfold pushDepthPenalty
    split_ifs <;> first | exact Or.inl rfl | exact Or.inr ⟨by norm_num, by norm_num⟩
  · intro d b
    unfold pushAlignmentPenalty
    split_ifs <;> first | exact Or.inl rfl | exact Or.inr ⟨by norm_num, by norm_num⟩
  · intro f
    unfold pushFlarePenalty
    split_ifs <;> first | exact Or.inl rfl | exact Or.inr ⟨by norm_num, by norm_num⟩
  · intro asym h
    unfold squatAsymmetryPenalty
    rw [if_pos h]
    have h8 : (8:ℤ) ≤ round (asym * 0.5) := by
      rw [round_eq]
      refine Int.le_floor.2 ?_
      push_cast
      linarith
    exact ⟨rfl, le_min (by norm_num) (by exact_mod_cast h8), min_le_left _ _⟩
  · intro lm
    refine ⟨?_, ?_, ?_⟩
    · unfold analyzeBackRow
      split_ifs
      · dsimp only
        exact le_max_left _ _
      · norm_num
    · unfold analyzeSquat
      split_ifs
      · dsimp only
        exact le_max_left _ _
      · norm_num
    · unfold analyzePushUp
      split_ifs
      · dsimp only
        exact le_max_left _ _
      · norm_num

/-- C4 witness: the asymmetry penalty at asymmetry 16 — it equals
`min 20 (round 8) = 8` and lies in [8, 20]. -/
theorem c4_amended_witness :
    squatAsymmetryPenalty 16 = min 20 ((round ((16:ℝ) * 0.5) : ℤ) : ℝ) ∧
    8 ≤ squatAsymmetryPenalty 16 ∧ squatAsymmetryPenalty 16 ≤ 20 :=
  c4_amended.2.2.2.2.2.2.2.2.2.2.2.1 16 (by norm_num)

end PeriodicGym
